import Mathlib

/-!
Shallow embedding of the BlenderFDS translation engine
(`zzz_blenderfds/bl/extensions.py`): the export path (`to_fds` on objects,
materials and scenes) and the import path (`Scene.from_fds`), together with
the external collaborators they call (registry of namelist classes,
tokenizer, host text-resource store), which are modelled as parameters.

Machine conventions:
* Python strings are Lean `String`s; `"sep".join(l)` is `pyJoin sep l` and
  `"".join(l)` is `pyConcat l`.
* Python's stable `list.sort(key=...)` / `sorted(..., key=...)` is `pySort le`
  where `le a b` decides `key a <= key b`; `pySort` is a stable insertion
  sort, matching Python's stability guarantee.
* Python `dict` parameter mappings are association lists
  `List (String × String)`; `k in d` is key membership.
* A raised `BFException` is an `Except` error value carrying the exception's
  `free_texts : List String`; the uncaught `ValueError` of
  `BFScene._get_imported_element` is the `Except String` error of the
  whole run.
* The host text store `bpy.data.texts` is a total map `String → String` from
  resource name to content (the claims only ever index existing resources).
-/

/-- Python `"sep".join(l)`. -/
def pyJoin (sep : String) : List String → String
  | [] => ""
  | [a] => a
  | a :: b :: l => a ++ sep ++ pyJoin sep (b :: l)

/-- Python `"".join(l)`. -/
def pyConcat : List String → String
  | [] => ""
  | a :: l => a ++ pyConcat l

/-- One step of stable insertion sort: insert `a` before the first element
`b` with `le a b` (i.e. `key a <= key b`), hence after every earlier element
whose key is strictly smaller or equal-and-earlier. -/
def pyInsert (le : α → α → Bool) (a : α) : List α → List α
  | [] => [a]
  | b :: l => if le a b then a :: b :: l else b :: pyInsert le a l

/-- Model of Python's stable `sorted(l, key=...)` / `l.sort(key=...)`:
stable insertion sort with `le a b` deciding `key a <= key b`. -/
def pySort (le : α → α → Bool) : List α → List α
  | [] => []
  | a :: l => pyInsert le a (pySort le l)

/-- A single-quote character as a string (used by the free-text header). -/
def squote : String := String.singleton (Char.ofNat 39)

/-- Newline string. -/
def nl : String := String.singleton (Char.ofNat 10)

-- ### Data model: host entities

/-- A Blender Scene, restricted to the attributes read by the engine. -/
structure SceneData where
  name : String
  bf_head_title : String
  /-- Name of the scene's HEAD free-text resource; `""` when unset. -/
  bf_head_free_text : String
  unit_system : String
  render_engine : String
deriving DecidableEq

/-- A Blender Object, restricted to the attributes read by the engine. -/
structure Ob where
  name : String
  /-- `self.type`: "MESH", "EMPTY", ... -/
  typ : String
  bf_namelist_cls : String
  bf_is_tmp : Bool
  bf_export : Bool
  bf_fyi : String
  /-- Name of the parent object (`ob.parent`), `none` at top level.
  Object names are unique within the host, so the name identifies it. -/
  parent : Option String
  draw_type : String
  show_transparent : Bool
deriving DecidableEq

/-- A Blender Material, restricted to the attributes read by the engine. -/
structure Mat where
  name : String
  bf_namelist_cls : String
  use_fake_user : Bool
deriving DecidableEq

/-- An element a namelist instance is bound to. -/
inductive Element where
  | scene (s : SceneData)
  | object (ob : Ob)
  | material (m : Mat)

/-- The `bpy_type` a namelist class is bound to; `other` covers any further
value (the fatal branch of `BFScene._get_imported_element`). -/
inductive BpyType where
  | scene
  | object
  | material
  | other
deriving DecidableEq

/-- A namelist class of the external registry (`BFNamelist` subclasses are
separately specified collaborators).  Behaviour of its instances is carried
as functions: `toFdsOb`/`toFdsScene`/`toFdsMat` model `instance.to_fds`
(returning `none` for Python `None`; the empty string is falsy as in
Python), `fromFds` models `instance.from_fds`, failing with the raised
`BFException`'s `free_texts`. -/
structure NamelistCls where
  clsName : String
  bpy_type : BpyType
  enum_id : Nat
  /-- `bf_other.get("draw_type")`: `none` when the key is absent. -/
  draw_type : Option String
  toFdsOb : Ob → Option String
  toFdsScene : SceneData → Option String
  toFdsMat : Mat → Option String
  fromFds : Element → List (String × String) → Except (List String) Unit

/-- The external registry `BFNamelist.all`: lookup by class name
(`all.get`), lookup by FDS label (`all.get_by_fds_label`), the iteration
order of the collection (`all`), and the entry `all["ON_free"]`, which the
source indexes directly (a well-formed registry contains it). -/
structure Registry where
  get : String → Option NamelistCls
  get_by_fds_label : String → Option NamelistCls
  all : List NamelistCls
  ON_free : NamelistCls

/-- A token returned by the external tokenizer `fds.to_py.tokenize`:
`(fds_label, fds_params, fds_original)`. -/
structure Token where
  label : String
  params : List (String × String)
  original : String
deriving DecidableEq

-- ### Object translator (class BFObject)

namespace BFObject

/-- `BFObject.bf_namelist`: instance resolution.  Instances are a class
paired with their element, so resolution returns the class (`none` for
Python `None`, including the implicit fall-through when the class-name
lookup fails). -/
def bf_namelist (reg : Registry) (ob : Ob) : Option NamelistCls :=
  if ob.typ ≠ "MESH" ∨ ob.bf_is_tmp then none
  else
    match reg.get ob.bf_namelist_cls with
    | some cls => some cls
    | none => none

/-- `BFObject.set_default_appearance`. -/
def set_default_appearance (reg : Registry) (ob : Ob) : Ob :=
  match bf_namelist reg ob with
  | none => ob
  | some cls =>
    let ob' :=
      match cls.draw_type with
      | some dt => if dt ≠ "" then { ob with draw_type := dt } else ob
      | none => ob
    { ob' with show_transparent := true }

/-- `BFObject._myself_to_fds`. -/
def myself_to_fds (reg : Registry) (ob : Ob) : List String :=
  if ob.bf_export then
    if ob.typ = "MESH" then
      match bf_namelist reg ob with
      | some cls =>
        match cls.toFdsOb ob with
        | some body => if body ≠ "" then [body] else []
        | none => []
      | none => []
    else if ob.typ = "EMPTY" then
      ["! -- " ++ ob.name ++ ": " ++ ob.bf_fyi ++ nl]
    else []
  else []

/-- Sort key of the first (stable) sort in `BFObject._children_to_fds`:
`key=lambda k: k.name`, so `le` decides `name <= name`. -/
def nameLe (a b : Ob) : Bool := decide (a.name ≤ b.name)

/-- Boolean sort key of the second (stable) sort in
`BFObject._children_to_fds`: `key=lambda k: k.bf_namelist_cls != "ON_MESH"`. -/
def notMesh (ob : Ob) : Bool := ob.bf_namelist_cls ≠ "ON_MESH"

/-- `le` of the second sort: Boolean `key a <= key b`. -/
def notMeshLe (a b : Ob) : Bool := !notMesh a || notMesh b

/-- The ordered children list built by `BFObject._children_to_fds`: filter
by parent, stable-sort by name, then stable-sort by the Boolean key
`bf_namelist_cls != "ON_MESH"`. -/
def sortedChildren (scene : List Ob) (p : Option String) : List Ob :=
  pySort notMeshLe (pySort nameLe (scene.filter (fun ob => ob.parent = p)))

/-- `BFObject._children_to_fds`, with the recursive `ob.to_fds(context,
with_children=True)` call inlined (`to_fds` is `myself` plus `children`).
`scene` is `context.scene.objects`; `p` is the name of `self` (`none` when
called with `self=None` from the scene exporter).  `fuel` bounds the
recursion depth; the host's parent relation is acyclic, so any
`fuel ≥` hierarchy depth computes the source's value. -/
def children_to_fds (reg : Registry) (scene : List Ob) :
    Nat → Option String → List String
  | 0, _ => []
  | fuel + 1, p =>
    let bodies :=
      ((sortedChildren scene p).map (fun ob =>
        pyConcat (myself_to_fds reg ob ++
          children_to_fds reg scene fuel (some ob.name)))).filter
        (fun body => body ≠ "")
    if bodies ≠ [] then bodies ++ [nl] else bodies

/-- `BFObject.to_fds`. -/
def to_fds (reg : Registry) (scene : List Ob) (fuel : Nat) (ob : Ob)
    (with_children : Bool) : String :=
  pyConcat (myself_to_fds reg ob ++
    (if with_children then children_to_fds reg scene fuel (some ob.name)
     else []))

end BFObject

-- ### Material translator (class BFMaterial)

namespace BFMaterial

/-- `BFMaterial.bf_namelist`. -/
def bf_namelist (reg : Registry) (m : Mat) : Option NamelistCls :=
  match reg.get m.bf_namelist_cls with
  | some cls => some cls
  | none => none

/-- `BFMaterial.set_default_appearance`. -/
def set_default_appearance (m : Mat) : Mat :=
  { m with use_fake_user := true }

/-- `BFMaterial.to_fds`; `predefined` is the external
`fds.surf.predefined` collection of reserved surface names. -/
def to_fds (reg : Registry) (predefined : List String) (m : Mat) :
    Option String :=
  if m.name ∉ predefined then
    match bf_namelist reg m with
    | some cls => cls.toFdsMat m
    | none => none
  else none

end BFMaterial

-- ### Scene translator (class BFScene)

/-- Environment facts read by the scene exporter that come from outside the
component (version strings, wall clock, current file path, predefined
surface names). -/
structure ExportEnv where
  blenderfdsVersion : String
  blenderVersion : String
  date : String
  filepath : String
  predefined : List String
  /-- The formatted elapsed-seconds figure of the TAIL comment. -/
  genTime : String

namespace BFScene

/-- `le` for the `bf_namelists` sort: `key=lambda k: k.enum_id`. -/
def enumIdLe (a b : NamelistCls) : Bool := decide (a.enum_id ≤ b.enum_id)

/-- `BFScene.bf_namelists`: the registry classes bound to `Scene`, sorted by
`enum_id` (instances are the class paired with the scene element). -/
def bf_namelists (reg : Registry) : List NamelistCls :=
  pySort enumIdLe (reg.all.filter (fun cls => cls.bpy_type = BpyType.scene))

/-- `BFScene.set_default_appearance`. -/
def set_default_appearance (s : SceneData) : SceneData :=
  { s with unit_system := "METRIC", render_engine := "CYCLES" }

/-- `BFScene._myself_to_fds`. -/
def myself_to_fds (reg : Registry) (s : SceneData) : List String :=
  let bodies :=
    ((bf_namelists reg).map (fun cls => cls.toFdsScene s)).filterMap
      (fun body =>
        match body with
        | some b => if b ≠ "" then some b else none
        | none => none)
  if bodies ≠ [] then bodies ++ [nl] else bodies

/-- `le` for the materials sort in `BFScene._children_to_fds`:
`key=lambda k: k.name`. -/
def matNameLe (a b : Mat) : Bool := decide (a.name ≤ b.name)

/-- `BFScene._children_to_fds`; `mats` is `bpy.data.materials`, `obs` is
`context.scene.objects`. -/
def children_to_fds (reg : Registry) (env : ExportEnv) (mats : List Mat)
    (obs : List Ob) (fuel : Nat) : List String :=
  let matBodies :=
    ((pySort matNameLe mats).map
      (fun m => BFMaterial.to_fds reg env.predefined m)).filterMap
      (fun body =>
        match body with
        | some b => if b ≠ "" then some b else none
        | none => none)
  [nl ++ "! --- Boundary conditions (from Blender Materials)" ++ nl] ++
    matBodies ++
    [nl ++ "! --- Geometric entities (from Blender Objects)" ++ nl] ++
    BFObject.children_to_fds reg obs fuel none

/-- `BFScene._header_to_fds`. -/
def header_to_fds (env : ExportEnv) (s : SceneData) : List String :=
  ["! Generated by BlenderFDS " ++ env.blenderfdsVersion ++ " on Blender " ++
    env.blenderVersion ++ nl,
   "! Case: " ++ s.name ++ " (from Blender Scene)" ++ nl,
   "! Description: " ++ s.bf_head_title ++ nl,
   "! Date: " ++ env.date ++ nl,
   "! File: " ++ env.filepath ++ nl ++ nl]

/-- `BFScene._free_text_to_fds`; `texts` is the host text store. -/
def free_text_to_fds (texts : String → String) (s : SceneData) :
    List String :=
  if s.bf_head_free_text ≠ "" then
    let free_text := texts s.bf_head_free_text
    if free_text = "" then []
    else
      let bodies :=
        ["! --- Free text: " ++ squote ++ s.bf_head_free_text ++ squote ++ nl,
         free_text]
      if free_text.data.getLast? ≠ some (Char.ofNat 10) then bodies ++ [nl]
      else bodies
  else []

/-- `BFScene.to_fds`. -/
def to_fds (reg : Registry) (env : ExportEnv) (texts : String → String)
    (mats : List Mat) (obs : List Ob) (fuel : Nat) (s : SceneData)
    (with_children : Bool) : String :=
  pyConcat
    ((if with_children then header_to_fds env s else []) ++
      myself_to_fds reg s ++
      free_text_to_fds texts s ++
      (if with_children then
        children_to_fds reg env mats obs fuel ++
          ["&TAIL /" ++ nl ++ "! Generated in " ++ env.genTime ++ " s."]
       else []))

-- ### Import

/-- The geometry keys of `BFScene._get_imported_bf_namelist_cls`. -/
def geomKeys : List String := ["XB", "XYZ", "PBX", "PBY", "PBZ"]

/-- `BFScene._get_imported_bf_namelist_cls`. -/
def get_imported_bf_namelist_cls (reg : Registry) (fds_label : String)
    (fds_params : List (String × String)) : Option NamelistCls :=
  match reg.get_by_fds_label fds_label with
  | some cls => some cls
  | none =>
    if geomKeys.any (fun k => (fds_params.map Prod.fst).contains k) then
      some reg.ON_free
    else none

/-- Modelled from the spec: `geometry.geom_utils.get_new_object` (repository
code not under `src/`) creates and links a new mesh object entity with the
given name ("object-kind namelist → create a new object entity named
New label"). -/
def get_new_object (name : String) : Ob :=
  { name := name, typ := "MESH", bf_namelist_cls := "", bf_is_tmp := false,
    bf_export := true, bf_fyi := "", parent := none, draw_type := "",
    show_transparent := false }

/-- Modelled from the spec: `geometry.geom_utils.get_new_material`
(repository code not under `src/`) creates a new material entity with the
given name ("material-kind namelist → create a new material entity named
New label"). -/
def get_new_material (name : String) : Mat :=
  { name := name, bf_namelist_cls := "", use_fake_user := false }

/-- Default name of the HEAD free-text resource when the scene has none. -/
def defaultFreeTextName : String := "HEAD free text"

/-- Modelled from the spec: `fds.head.set_free_text_file` (repository code
not under `src/`) returns the name of the scene's free-text resource,
"creating that resource if absent": it keeps the configured name when
present and otherwise designates the default one on the scene. -/
def fds_head_set_free_text_file (s : SceneData) : SceneData × String :=
  if s.bf_head_free_text ≠ "" then (s, s.bf_head_free_text)
  else ({ s with bf_head_free_text := defaultFreeTextName },
        defaultFreeTextName)

/-- The state threaded through an import run: the importing scene, the host
text store, the entities created so far, the error flag and the accumulated
free-text fallback list of `BFScene.from_fds`. -/
structure ImportState where
  scene : SceneData
  texts : String → String
  newObs : List Ob
  newMats : List Mat
  errors : Bool
  free_texts : List String

/-- `BFScene._get_imported_element`: resolve or create the backing entity
for a managed namelist class, apply the default appearance, and record the
creation; an unrecognized `bpy_type` raises the fatal `ValueError`. -/
def get_imported_element (reg : Registry) (st : ImportState)
    (cls : NamelistCls) (fds_label : String) :
    Except String (Element × ImportState) :=
  match cls.bpy_type with
  | BpyType.scene =>
    let s := set_default_appearance st.scene
    Except.ok (Element.scene s, { st with scene := s })
  | BpyType.object =>
    let ob := get_new_object ("New " ++ fds_label)
    let ob := { ob with bf_namelist_cls := cls.clsName }
    let ob := BFObject.set_default_appearance reg ob
    Except.ok (Element.object ob, { st with newObs := st.newObs ++ [ob] })
  | BpyType.material =>
    let m := get_new_material ("New " ++ fds_label)
    let m := { m with bf_namelist_cls := "MN_SURF" }
    let m := BFMaterial.set_default_appearance m
    Except.ok (Element.material m, { st with newMats := st.newMats ++ [m] })
  | BpyType.other =>
    Except.error "BFDS: BFScene.from_fds: Unrecognized namelist type!"

/-- `BFScene._save_imported_unmanaged_tokens`: append the pre-existing
content of the free-text resource (when non-empty) to the fallback list and
persist the newline-joined result as the resource's content. -/
def save_imported_unmanaged_tokens (st : ImportState) : ImportState :=
  let pr := fds_head_set_free_text_file st.scene
  let old_free_texts := st.texts pr.2
  let fts :=
    if old_free_texts ≠ "" then st.free_texts ++ [old_free_texts]
    else st.free_texts
  { st with scene := pr.1, free_texts := fts,
            texts := fun n => if n = pr.2 then pyJoin nl fts else st.texts n }

/-- One iteration of the token loop of `BFScene.from_fds`. -/
def processToken (reg : Registry) (st : ImportState) (t : Token) :
    Except String ImportState :=
  match get_imported_bf_namelist_cls reg t.label t.params with
  | some cls =>
    match get_imported_element reg st cls t.label with
    | Except.error e => Except.error e
    | Except.ok (el, st') =>
      match cls.fromFds el t.params with
      | Except.ok _ => Except.ok st'
      | Except.error fts =>
        Except.ok { st' with errors := true,
                             free_texts := st'.free_texts ++ fts }
  | none =>
    Except.ok { st with free_texts := st.free_texts ++ [t.original] }

/-- The token loop of `BFScene.from_fds` (a Python `for` whose body may
raise the fatal `ValueError`). -/
def importFold (reg : Registry) : List Token → ImportState →
    Except String ImportState
  | [], st => Except.ok st
  | t :: ts, st =>
    match processToken reg st t with
    | Except.error e => Except.error e
    | Except.ok st' => importFold reg ts st'

/-- Boolean sort key of `sorted(tokens, key=lambda k: k[0] != "SURF_ID")`. -/
def notSurfId (t : Token) : Bool := t.label ≠ "SURF_ID"

/-- `le` of that sort: Boolean `key a <= key b`. -/
def surfLe (a b : Token) : Bool := !notSurfId a || notSurfId b

/-- The initial import state of a `BFScene.from_fds` run. -/
def initState (s : SceneData) (texts : String → String) : ImportState :=
  { scene := s, texts := texts, newObs := [], newMats := [],
    errors := false, free_texts := [] }

/-- The tokenize-and-loop phase of `BFScene.from_fds`: tokenize the value
(a parse failure sets the error flag and records the exception's
`free_texts`), then process the tokens, `SURF_ID`-labelled ones first. -/
def from_fds_fold (reg : Registry)
    (tokenize : String → Except (List String) (List Token)) (s : SceneData)
    (texts : String → String) (value : String) :
    Except String ImportState :=
  match tokenize value with
  | Except.ok ts => importFold reg (pySort surfLe ts) (initState s texts)
  | Except.error errFts =>
    Except.ok { initState s texts with errors := true, free_texts := errFts }

/-- The message of the aggregate `BFException` of `BFScene.from_fds`. -/
def aggregateMsg : String :=
  "Errors reported, see details in HEAD free text file."

/-- Outcome of a `BFScene.from_fds` run that did not hit the fatal
`ValueError`: the final state, and the aggregate `BFException` when it is
raised at the end of the run (raised after the free text is persisted, so
the final state already reflects the persistence). -/
structure FromFdsResult where
  state : ImportState
  raised : Option String

/-- `BFScene.from_fds`. -/
def from_fds (reg : Registry)
    (tokenize : String → Except (List String) (List Token)) (s : SceneData)
    (texts : String → String) (value : String) :
    Except String FromFdsResult :=
  match from_fds_fold reg tokenize s texts value with
  | Except.error e => Except.error e
  | Except.ok st =>
    let st' := save_imported_unmanaged_tokens st
    Except.ok { state := st',
                raised := if st.errors then some aggregateMsg else none }

end BFScene

-- ### Derived observers (used only to state properties of the runs)

namespace BFScene

/-- Observer: the element a managed token resolves to during an import run
that started from scene `s0` (object and material elements are fresh and
state independent; the scene element is the importing scene with the
default appearance applied, which is idempotent). -/
def tokenElement (reg : Registry) (s0 : SceneData) (cls : NamelistCls)
    (label : String) : Option Element :=
  match cls.bpy_type with
  | BpyType.scene => some (Element.scene (set_default_appearance s0))
  | BpyType.object =>
    some (Element.object (BFObject.set_default_appearance reg
      { get_new_object ("New " ++ label) with bf_namelist_cls := cls.clsName }))
  | BpyType.material =>
    some (Element.material (BFMaterial.set_default_appearance
      { get_new_material ("New " ++ label) with bf_namelist_cls := "MN_SURF" }))
  | BpyType.other => none

/-- Observer: whether a token's import step sets the error flag (its
namelist's `from_fds` raises). -/
def tokenFails (reg : Registry) (s0 : SceneData) (t : Token) : Bool :=
  match get_imported_bf_namelist_cls reg t.label t.params with
  | none => false
  | some cls =>
    match tokenElement reg s0 cls t.label with
    | none => false
    | some el =>
      match cls.fromFds el t.params with
      | Except.ok _ => false
      | Except.error _ => true

/-- Observer: the strings a token adds to the free-text fallback list (the
verbatim original for an unmanaged token, the raised exception's
`free_texts` for a failing managed one). -/
def tokenContribution (reg : Registry) (s0 : SceneData) (t : Token) :
    List String :=
  match get_imported_bf_namelist_cls reg t.label t.params with
  | none => [t.original]
  | some cls =>
    match tokenElement reg s0 cls t.label with
    | none => []
    | some el =>
      match cls.fromFds el t.params with
      | Except.ok _ => []
      | Except.error fts => fts

/-- Observer: whether tokenization of the input raised a parse error. -/
def parseFailed (tokenize : String → Except (List String) (List Token))
    (value : String) : Bool :=
  match tokenize value with
  | Except.error _ => true
  | Except.ok _ => false

/-- Observer: the token sequence produced by the tokenizer (empty on a
parse error). -/
def parsedTokens (tokenize : String → Except (List String) (List Token))
    (value : String) : List Token :=
  match tokenize value with
  | Except.ok ts => ts
  | Except.error _ => []

/-- Observer: every free-text fragment accumulated by an import run, in
order: the parse error's fragments, or the per-token contributions in
processing order. -/
def importFragments (reg : Registry)
    (tokenize : String → Except (List String) (List Token)) (s0 : SceneData)
    (value : String) : List String :=
  match tokenize value with
  | Except.error errFts => errFts
  | Except.ok ts => (pySort surfLe ts).flatMap (tokenContribution reg s0)

/-- Observer: the name of the scene's free-text resource. -/
def freeTextName (s : SceneData) : String := (fds_head_set_free_text_file s).2

end BFScene

-- ### Concrete fixtures (inputs for witnesses and counterexamples)

/-- Fixture: a scene-bound namelist class. -/
def wClsHEAD : NamelistCls :=
  { clsName := "SN_HEAD", bpy_type := BpyType.scene, enum_id := 1,
    draw_type := none, toFdsOb := fun _ => none,
    toFdsScene := fun s => some ("&HEAD CHID=" ++ s.name ++ " /" ++ nl),
    toFdsMat := fun _ => none, fromFds := fun _ _ => Except.ok () }

/-- Fixture: a second scene-bound namelist class. -/
def wClsTIME : NamelistCls :=
  { clsName := "SN_TIME", bpy_type := BpyType.scene, enum_id := 2,
    draw_type := none, toFdsOb := fun _ => none,
    toFdsScene := fun _ => some ("&TIME T_END=10. /" ++ nl),
    toFdsMat := fun _ => none, fromFds := fun _ _ => Except.ok () }

/-- Fixture: an object-bound namelist class whose import fails on a
parameter mapping containing the pair BAD=1. -/
def wClsOBST : NamelistCls :=
  { clsName := "ON_OBST", bpy_type := BpyType.object, enum_id := 10,
    draw_type := some "SOLID",
    toFdsOb := fun ob => some ("&OBST ID=" ++ ob.name ++ " /" ++ nl),
    toFdsScene := fun _ => none, toFdsMat := fun _ => none,
    fromFds := fun _ ps =>
      if ps.contains ("BAD", "1") then Except.error ["&OBST BAD=1 /"]
      else Except.ok () }

/-- Fixture: the mesh-definition namelist class. -/
def wClsMESH : NamelistCls :=
  { clsName := "ON_MESH", bpy_type := BpyType.object, enum_id := 5,
    draw_type := none,
    toFdsOb := fun ob => some ("&MESH ID=" ++ ob.name ++ " /" ++ nl),
    toFdsScene := fun _ => none, toFdsMat := fun _ => none,
    fromFds := fun _ _ => Except.ok () }

/-- Fixture: the default surface namelist class. -/
def wClsSURF : NamelistCls :=
  { clsName := "MN_SURF", bpy_type := BpyType.material, enum_id := 20,
    draw_type := none, toFdsOb := fun _ => none, toFdsScene := fun _ => none,
    toFdsMat := fun m => some ("&SURF ID=" ++ m.name ++ " /" ++ nl),
    fromFds := fun _ _ => Except.ok () }

/-- Fixture: the free-geometry namelist class. -/
def wClsFree : NamelistCls :=
  { clsName := "ON_free", bpy_type := BpyType.object, enum_id := 30,
    draw_type := none, toFdsOb := fun _ => none, toFdsScene := fun _ => none,
    toFdsMat := fun _ => none, fromFds := fun _ _ => Except.ok () }

/-- Fixture: a misconfigured namelist class with an unrecognized kind. -/
def wClsBAD : NamelistCls :=
  { clsName := "XX_BAD", bpy_type := BpyType.other, enum_id := 99,
    draw_type := none, toFdsOb := fun _ => none, toFdsScene := fun _ => none,
    toFdsMat := fun _ => none, fromFds := fun _ _ => Except.ok () }

/-- Fixture registry. -/
def wReg : Registry :=
  { get := fun n =>
      if n = "ON_OBST" then some wClsOBST
      else if n = "ON_MESH" then some wClsMESH
      else if n = "MN_SURF" then some wClsSURF
      else if n = "ON_free" then some wClsFree
      else none,
    get_by_fds_label := fun l =>
      if l = "OBST" then some wClsOBST
      else if l = "SURF_ID" then some wClsSURF
      else if l = "BADKIND" then some wClsBAD
      else none,
    all := [wClsOBST, wClsTIME, wClsHEAD, wClsMESH, wClsSURF, wClsFree],
    ON_free := wClsFree }

/-- Fixture: a disabled parent object. -/
def wObP : Ob :=
  { name := "P", typ := "MESH", bf_namelist_cls := "ON_OBST",
    bf_is_tmp := false, bf_export := false, bf_fyi := "", parent := none,
    draw_type := "", show_transparent := false }

/-- Fixture: an exportable child bound to a non-mesh class. -/
def wObA : Ob :=
  { name := "A", typ := "MESH", bf_namelist_cls := "ON_OBST",
    bf_is_tmp := false, bf_export := true, bf_fyi := "",
    parent := some "P", draw_type := "", show_transparent := false }

/-- Fixture: an exportable child bound to the mesh-definition class. -/
def wObB : Ob :=
  { name := "B", typ := "MESH", bf_namelist_cls := "ON_MESH",
    bf_is_tmp := false, bf_export := true, bf_fyi := "",
    parent := some "P", draw_type := "", show_transparent := false }

/-- Fixture: a temporary mesh object. -/
def wObTmp : Ob :=
  { name := "T", typ := "MESH", bf_namelist_cls := "ON_OBST",
    bf_is_tmp := true, bf_export := true, bf_fyi := "", parent := none,
    draw_type := "", show_transparent := false }

/-- Fixture scene-object collection. -/
def wObs : List Ob := [wObP, wObA, wObB]

/-- Fixture scene. -/
def wScene : SceneData :=
  { name := "Scene", bf_head_title := "Title", bf_head_free_text := "FT",
    unit_system := "NONE", render_engine := "BLENDER_RENDER" }

/-- Fixture text store: the free-text resource FT holds OLD. -/
def wTexts : String → String := fun n => if n = "FT" then "OLD" else ""

/-- Fixture tokens. -/
def wTokOBST : Token :=
  { label := "OBST", params := [("XB", "1")], original := "&OBST XB=1 /" }

/-- Fixture token with the surface-identifier label. -/
def wTokSURF : Token :=
  { label := "SURF_ID", params := [("ID", "s")],
    original := "&SURF_ID ID=s /" }

/-- Fixture unmanaged token. -/
def wTokUnm : Token := { label := "ZZZ", params := [], original := "&ZZZ /" }

/-- Fixture token list. -/
def wToks : List Token := [wTokOBST, wTokSURF, wTokUnm]

/-- Fixture tokenizer. -/
def wTokenize : String → Except (List String) (List Token) :=
  fun _ => Except.ok wToks

/-- Fixture managed token whose namelist import fails. -/
def wTokBAD : Token :=
  { label := "OBST", params := [("BAD", "1")], original := "&OBST BAD=1 /" }

/-- Fixture tokenizer returning only the failing managed token. -/
def wTokenizeErr : String → Except (List String) (List Token) :=
  fun _ => Except.ok [wTokBAD]

/-- Fixture tokenizer returning only the unmanaged token. -/
def wTokenizeUnm : String → Except (List String) (List Token) :=
  fun _ => Except.ok [wTokUnm]

/-- The import state reached by the fixture unmanaged-token run, before the
free text is persisted. -/
def stC1 : BFScene.ImportState :=
  { scene := wScene, texts := wTexts, newObs := [], newMats := [],
    errors := false, free_texts := ["&ZZZ /"] }

/-- Projection: the persisted content of the named text resource after a
`from_fds` run (`none` when the run ended in the fatal error). -/
def savedTextOf (r : Except String BFScene.FromFdsResult) (name : String) :
    Option String :=
  match r with
  | Except.ok res => some (res.state.texts name)
  | Except.error _ => none

/-- Fixture export environment. -/
def wEnv : ExportEnv :=
  { blenderfdsVersion := "5.0.0", blenderVersion := "2.79",
    date := "today", filepath := "case.blend", predefined := ["INERT"],
    genTime := "0" }

/-- Fixture materials. -/
def wMats : List Mat :=
  [{ name := "M2", bf_namelist_cls := "MN_SURF", use_fake_user := false },
   { name := "INERT", bf_namelist_cls := "MN_SURF", use_fake_user := false }]

/-- The object created by importing the failing OBST fixture token. -/
def wObNew : Ob :=
  { name := "New OBST", typ := "MESH", bf_namelist_cls := "ON_OBST",
    bf_is_tmp := false, bf_export := true, bf_fyi := "", parent := none,
    draw_type := "SOLID", show_transparent := true }

/-- The import state reached by the fixture failing-token run, before the
free text is persisted. -/
def stC5 : BFScene.ImportState :=
  { scene := wScene, texts := wTexts, newObs := [wObNew], newMats := [],
    errors := true, free_texts := ["&OBST BAD=1 /"] }

/-- The result of the fixture failing-token run. -/
def rC5 : BFScene.FromFdsResult :=
  { state := BFScene.save_imported_unmanaged_tokens stC5,
    raised := some BFScene.aggregateMsg }

/-- The result of the fixture unmanaged-token run. -/
def rC6 : BFScene.FromFdsResult :=
  { state := BFScene.save_imported_unmanaged_tokens stC1, raised := none }

-- ### General lemmas about the Python-sort model

theorem pyInsert_perm (le : α → α → Bool) (a : α) :
    ∀ l : List α, (pyInsert le a l).Perm (a :: l)
  | [] => List.Perm.refl _
  | b :: l => by
    unfold pyInsert
    by_cases h : le a b = true
    · rw [if_pos h]
    · rw [if_neg h]
      exact ((pyInsert_perm le a l).cons b).trans (List.Perm.swap a b l)

theorem pySort_perm (le : α → α → Bool) :
    ∀ l : List α, (pySort le l).Perm l
  | [] => List.Perm.refl _
  | a :: l =>
    (pyInsert_perm le a (pySort le l)).trans ((pySort_perm le l).cons a)

theorem mem_pyInsert (le : α → α → Bool) (a x : α) (l : List α) :
    x ∈ pyInsert le a l ↔ x = a ∨ x ∈ l := by
  rw [(pyInsert_perm le a l).mem_iff, List.mem_cons]

theorem pyInsert_nil (le : α → α → Bool) (a : α) : pyInsert le a [] = [a] :=
  rfl

theorem pyInsert_cons (le : α → α → Bool) (a b : α) (l : List α) :
    pyInsert le a (b :: l) =
      if le a b then a :: b :: l else b :: pyInsert le a l :=
  rfl

theorem pyInsert_eq_cons (le : α → α → Bool) (a : α) (l : List α)
    (h : ∀ b ∈ l, le a b = true) : pyInsert le a l = a :: l := by
  cases l with
  | nil => rfl
  | cons b t =>
    show pyInsert le a (b :: t) = _
    unfold pyInsert
    rw [if_pos (h b (List.mem_cons_self b t))]

theorem pyInsert_append (le : α → α → Bool) (a : α) :
    ∀ (F M : List α), (∀ b ∈ F, le a b = false) →
      pyInsert le a (F ++ M) = F ++ pyInsert le a M := by
  intro F
  induction F with
  | nil => intro M _; rfl
  | cons b F ih =>
    intro M h
    have hb : le a b = false := h b (List.mem_cons_self b F)
    show pyInsert le a (b :: (F ++ M)) = b :: (F ++ pyInsert le a M)
    rw [pyInsert_cons, if_neg (by simp [hb]),
        ih M (fun c hc => h c (List.mem_cons_of_mem b hc))]

theorem pySort_boolKey (key : α → Bool) (le : α → α → Bool)
    (hle : ∀ a b, le a b = (!key a || key b)) :
    ∀ l : List α,
      pySort le l = l.filter (fun a => !key a) ++ l.filter key := by
  intro l
  induction l with
  | nil => rfl
  | cons a l ih =>
    show pyInsert le a (pySort le l) = _
    rw [ih]
    by_cases hk : key a = true
    · rw [pyInsert_append le a _ _ (fun b hb => ?_),
          pyInsert_eq_cons le a _ (fun b hb => ?_)]
      · simp [List.filter_cons, hk]
      · have := (List.mem_filter.mp hb).2
        rw [hle a b, this, Bool.or_true]
      · have := (List.mem_filter.mp hb).2
        rw [Bool.not_eq_true'] at this
        rw [hle a b, this, hk]
        rfl
    · rw [Bool.not_eq_true] at hk
      rw [pyInsert_eq_cons le a _ (fun b hb => ?_)]
      · simp [List.filter_cons, hk]
      · rw [hle a b, hk]
        rfl

theorem pyInsert_pairwise (le : α → α → Bool)
    (htr : ∀ {x y z : α}, le x y = true → le y z = true → le x z = true)
    (htot : ∀ x y : α, le x y = true ∨ le y x = true) (a : α) :
    ∀ {l : List α}, l.Pairwise (fun x y => le x y = true) →
      (pyInsert le a l).Pairwise (fun x y => le x y = true) := by
  intro l
  induction l with
  | nil => intro _; simp [pyInsert]
  | cons b t ih =>
    intro hp
    rcases List.pairwise_cons.mp hp with ⟨hb, ht⟩
    show (pyInsert le a (b :: t)).Pairwise _
    unfold pyInsert
    by_cases hab : le a b = true
    · rw [if_pos hab]
      refine List.pairwise_cons.mpr ⟨?_, hp⟩
      intro x hx
      rcases List.mem_cons.mp hx with rfl | hx
      · exact hab
      · exact htr hab (hb x hx)
    · rw [if_neg hab]
      refine List.pairwise_cons.mpr ⟨?_, ih ht⟩
      intro x hx
      rcases (mem_pyInsert le a x t).mp hx with rfl | hx
      · rcases htot x b with h | h
        · exact absurd h hab
        · exact h
      · exact hb x hx

theorem pySort_pairwise (le : α → α → Bool)
    (htr : ∀ {x y z : α}, le x y = true → le y z = true → le x z = true)
    (htot : ∀ x y : α, le x y = true ∨ le y x = true) :
    ∀ l : List α, (pySort le l).Pairwise (fun x y => le x y = true)
  | [] => by simp [pySort]
  | a :: l =>
    pyInsert_pairwise le htr htot a (pySort_pairwise le htr htot l)

theorem pyInsert_filter (le : α → α → Bool) (p : α → Bool)
    (htr : ∀ {x y z : α}, le x y = true → le y z = true → le x z = true)
    (a : α) :
    ∀ {l : List α}, l.Pairwise (fun x y => le x y = true) →
      (pyInsert le a l).filter p =
        if p a then pyInsert le a (l.filter p) else l.filter p := by
  intro l
  induction l with
  | nil =>
    intro _
    by_cases hp : p a = true <;> simp [pyInsert, List.filter, hp]
  | cons b t ih =>
    intro hs
    rcases List.pairwise_cons.mp hs with ⟨hb, ht⟩
    rw [pyInsert_cons]
    by_cases hab : le a b = true
    · rw [if_pos hab]
      by_cases hpa : p a = true
      · rw [if_pos hpa, List.filter_cons_of_pos hpa]
        by_cases hpb : p b = true
        · rw [List.filter_cons_of_pos hpb, pyInsert_cons, if_pos hab]
        · rw [List.filter_cons_of_neg (by simp [hpb]),
              pyInsert_eq_cons le a _
                (fun c hc => htr hab (hb c (List.mem_filter.mp hc).1))]
      · rw [if_neg hpa, List.filter_cons_of_neg (by simp [hpa])]
    · rw [if_neg hab]
      by_cases hpb : p b = true
      · rw [List.filter_cons_of_pos hpb, List.filter_cons_of_pos hpb, ih ht]
        by_cases hpa : p a = true
        · rw [if_pos hpa, if_pos hpa, pyInsert_cons, if_neg hab]
        · rw [if_neg hpa, if_neg hpa]
      · rw [List.filter_cons_of_neg (by simp [hpb]),
            List.filter_cons_of_neg (by simp [hpb]), ih ht]

theorem pySort_filter (le : α → α → Bool) (p : α → Bool)
    (htr : ∀ {x y z : α}, le x y = true → le y z = true → le x z = true)
    (htot : ∀ x y : α, le x y = true ∨ le y x = true) :
    ∀ l : List α, (pySort le l).filter p = pySort le (l.filter p) := by
  intro l
  induction l with
  | nil => rfl
  | cons a l ih =>
    show (pyInsert le a (pySort le l)).filter p = _
    rw [pyInsert_filter le p htr a (pySort_pairwise le htr htot l), ih]
    by_cases hpa : p a = true
    · rw [if_pos hpa, List.filter_cons_of_pos hpa]
      rfl
    · rw [if_neg hpa, List.filter_cons_of_neg (by simp [hpa])]

theorem sorted_eq_of_perm (le : α → α → Bool) :
    ∀ {l₁ l₂ : List α}, l₁.Perm l₂ →
      l₁.Pairwise (fun x y => le x y = true) →
      l₂.Pairwise (fun x y => le x y = true) →
      (∀ a ∈ l₁, ∀ b ∈ l₁, le a b = true → le b a = true → a = b) →
      l₁ = l₂ := by
  intro l₁
  induction l₁ with
  | nil =>
    intro l₂ hp _ _ _
    exact (hp.symm.eq_nil).symm
  | cons a t ih =>
    intro l₂ hp hs₁ hs₂ hanti
    cases l₂ with
    | nil => exact hp.eq_nil
    | cons b t₂ =>
      by_cases hab : a = b
      · subst hab
        rw [ih hp.cons_inv (List.pairwise_cons.mp hs₁).2
          (List.pairwise_cons.mp hs₂).2
          (fun x hx y hy hxy hyx =>
            hanti x (List.mem_cons_of_mem a hx) y
              (List.mem_cons_of_mem a hy) hxy hyx)]
      · have ha2 : a ∈ b :: t₂ := hp.subset (List.mem_cons_self a t)
        have hb1 : b ∈ a :: t := hp.symm.subset (List.mem_cons_self b t₂)
        have ha2' : a ∈ t₂ := by
          rcases List.mem_cons.mp ha2 with h | h
          · exact absurd h hab
          · exact h
        have hb1' : b ∈ t := by
          rcases List.mem_cons.mp hb1 with h | h
          · exact absurd h.symm hab
          · exact h
        have h₁ : le a b = true := (List.pairwise_cons.mp hs₁).1 b hb1'
        have h₂ : le b a = true := (List.pairwise_cons.mp hs₂).1 a ha2'
        exact absurd (hanti a (List.mem_cons_self a t) b
          (List.mem_cons_of_mem a hb1') h₁ h₂) hab

theorem pySort_eq_of_perm (le : α → α → Bool)
    (htr : ∀ {x y z : α}, le x y = true → le y z = true → le x z = true)
    (htot : ∀ x y : α, le x y = true ∨ le y x = true)
    {l₁ l₂ : List α} (hp : l₁.Perm l₂)
    (hanti : ∀ a ∈ l₁, ∀ b ∈ l₁, le a b = true → le b a = true → a = b) :
    pySort le l₁ = pySort le l₂ := by
  refine sorted_eq_of_perm le
    ((pySort_perm le l₁).trans (hp.trans (pySort_perm le l₂).symm))
    (pySort_pairwise le htr htot l₁) (pySort_pairwise le htr htot l₂) ?_
  intro a ha b hb
  exact hanti a ((pySort_perm le l₁).subset ha) b
    ((pySort_perm le l₁).subset hb)

theorem perm_any {l₁ l₂ : List α} (p : α → Bool) (h : l₁.Perm l₂) :
    l₁.any p = l₂.any p := by
  cases h1 : l₁.any p <;> cases h2 : l₂.any p <;> try rfl
  · rcases List.any_eq_true.mp h2 with ⟨x, hx, hpx⟩
    have : l₁.any p = true := List.any_eq_true.mpr ⟨x, h.symm.subset hx, hpx⟩
    simp [h1] at this
  · rcases List.any_eq_true.mp h1 with ⟨x, hx, hpx⟩
    have : l₂.any p = true := List.any_eq_true.mpr ⟨x, h.subset hx, hpx⟩
    simp [h2] at this

-- ### Facts about the concrete sort relations

theorem nameLe_trans {x y z : Ob} (h1 : BFObject.nameLe x y = true)
    (h2 : BFObject.nameLe y z = true) : BFObject.nameLe x z = true := by
  simp only [BFObject.nameLe, decide_eq_true_eq] at *
  exact le_trans h1 h2

theorem nameLe_total (x y : Ob) :
    BFObject.nameLe x y = true ∨ BFObject.nameLe y x = true := by
  simp only [BFObject.nameLe, decide_eq_true_eq]
  exact le_total x.name y.name

theorem enumIdLe_trans {x y z : NamelistCls}
    (h1 : BFScene.enumIdLe x y = true) (h2 : BFScene.enumIdLe y z = true) :
    BFScene.enumIdLe x z = true := by
  simp only [BFScene.enumIdLe, decide_eq_true_eq] at *
  exact le_trans h1 h2

theorem enumIdLe_total (x y : NamelistCls) :
    BFScene.enumIdLe x y = true ∨ BFScene.enumIdLe y x = true := by
  simp only [BFScene.enumIdLe, decide_eq_true_eq]
  exact le_total x.enum_id y.enum_id

theorem name_inj : ∀ (l : List Ob),
    l.Pairwise (fun a b => a.name ≠ b.name) →
    ∀ a ∈ l, ∀ b ∈ l, a.name = b.name → a = b := by
  intro l
  induction l with
  | nil => intro _; simp
  | cons c t ih =>
    intro hnd a ha b hb heq
    rcases List.pairwise_cons.mp hnd with ⟨hc, ht⟩
    rcases List.mem_cons.mp ha with rfl | ha'
    · rcases List.mem_cons.mp hb with rfl | hb'
      · rfl
      · exact absurd heq (hc b hb')
    · rcases List.mem_cons.mp hb with rfl | hb'
      · exact absurd heq.symm (hc a ha')
      · exact ih ht a ha' b hb' heq

theorem pySort_nameLe_eq {l₁ l₂ : List Ob} (hp : l₁.Perm l₂)
    (hnd : l₁.Pairwise (fun a b => a.name ≠ b.name)) :
    pySort BFObject.nameLe l₁ = pySort BFObject.nameLe l₂ :=
  pySort_eq_of_perm BFObject.nameLe nameLe_trans nameLe_total hp
    (fun a ha b hb h1 h2 =>
      name_inj l₁ hnd a ha b hb
        (le_antisymm (by simpa [BFObject.nameLe] using h1)
          (by simpa [BFObject.nameLe] using h2)))

-- ### Children ordering (export)

theorem sortedChildren_eq (scene : List Ob) (p : Option String) :
    BFObject.sortedChildren scene p =
      pySort BFObject.nameLe
        ((scene.filter (fun ob => ob.parent = p)).filter
          (fun ob => !BFObject.notMesh ob)) ++
      pySort BFObject.nameLe
        ((scene.filter (fun ob => ob.parent = p)).filter BFObject.notMesh) := by
  unfold BFObject.sortedChildren
  rw [pySort_boolKey BFObject.notMesh BFObject.notMeshLe (fun _ _ => rfl),
      pySort_filter BFObject.nameLe _ nameLe_trans nameLe_total,
      pySort_filter BFObject.nameLe _ nameLe_trans nameLe_total]

theorem sortedChildren_perm_eq {s₁ s₂ : List Ob} (hp : s₁.Perm s₂)
    (hnd : s₁.Pairwise (fun a b => a.name ≠ b.name)) (p : Option String) :
    BFObject.sortedChildren s₁ p = BFObject.sortedChildren s₂ p := by
  rw [sortedChildren_eq, sortedChildren_eq]
  have hpc : (s₁.filter (fun ob => ob.parent = p)).Perm
      (s₂.filter (fun ob => ob.parent = p)) := hp.filter _
  have hndc : (s₁.filter (fun ob => ob.parent = p)).Pairwise
      (fun a b => a.name ≠ b.name) :=
    List.Pairwise.sublist (List.filter_sublist _) hnd
  rw [pySort_nameLe_eq (hpc.filter _)
        (List.Pairwise.sublist (List.filter_sublist _) hndc),
      pySort_nameLe_eq (hpc.filter _)
        (List.Pairwise.sublist (List.filter_sublist _) hndc)]

theorem children_to_fds_perm_eq (reg : Registry) {s₁ s₂ : List Ob}
    (hp : s₁.Perm s₂) (hnd : s₁.Pairwise (fun a b => a.name ≠ b.name)) :
    ∀ (fuel : Nat) (p : Option String),
      BFObject.children_to_fds reg s₁ fuel p =
        BFObject.children_to_fds reg s₂ fuel p := by
  intro fuel
  induction fuel with
  | zero => intro p; rfl
  | succ n ih =>
    intro p
    simp only [BFObject.children_to_fds]
    rw [sortedChildren_perm_eq hp hnd p]
    simp only [ih]


theorem children_to_fds_succ (reg : Registry) (scene : List Ob) (fuel : Nat)
    (p : Option String) :
    BFObject.children_to_fds reg scene (fuel + 1) p =
      (if (((BFObject.sortedChildren scene p).map
          (fun ob => BFObject.to_fds reg scene fuel ob true)).filter
            (fun body => body ≠ "")) ≠ [] then
        (((BFObject.sortedChildren scene p).map
          (fun ob => BFObject.to_fds reg scene fuel ob true)).filter
            (fun body => body ≠ "")) ++ [nl]
      else
        (((BFObject.sortedChildren scene p).map
          (fun ob => BFObject.to_fds reg scene fuel ob true)).filter
            (fun body => body ≠ ""))) := rfl

-- ### Claim theorems

/-- C2: `Scene.from_fds` processes the tokenizer's token sequence in the
stable-partition order: every token labelled SURF_ID first, the others
after, each group keeping its original relative order.  The reordering
`sorted(tokens, key=lambda k: k[0] != "SURF_ID")` equals the filter
decomposition, and the import loop is run on exactly that reordered
sequence. -/
theorem claim_C2 (reg : Registry)
    (tokenize : String → Except (List String) (List Token)) (s : SceneData)
    (texts : String → String) (value : String) (ts : List Token)
    (h : tokenize value = Except.ok ts) :
    pySort BFScene.surfLe ts =
      ts.filter (fun t => !BFScene.notSurfId t) ++
        ts.filter BFScene.notSurfId ∧
    BFScene.from_fds_fold reg tokenize s texts value =
      BFScene.importFold reg
        (ts.filter (fun t => !BFScene.notSurfId t) ++
          ts.filter BFScene.notSurfId)
        (BFScene.initState s texts) := by
  have hkey := pySort_boolKey BFScene.notSurfId BFScene.surfLe
    (fun _ _ => rfl) ts
  refine ⟨hkey, ?_⟩
  unfold BFScene.from_fds_fold
  rw [h]
  show BFScene.importFold reg (pySort BFScene.surfLe ts)
    (BFScene.initState s texts) = _
  rw [hkey]

/-- Witness for C2 at a concrete tokenizer returning an OBST, a SURF_ID and
an unmanaged token. -/
theorem claim_C2_witness :
    pySort BFScene.surfLe wToks =
      wToks.filter (fun t => !BFScene.notSurfId t) ++
        wToks.filter BFScene.notSurfId ∧
    BFScene.from_fds_fold wReg wTokenize wScene wTexts "V" =
      BFScene.importFold wReg
        (wToks.filter (fun t => !BFScene.notSurfId t) ++
          wToks.filter BFScene.notSurfId)
        (BFScene.initState wScene wTexts) :=
  claim_C2 wReg wTokenize wScene wTexts "V" wToks rfl

/-- C3: with children requested, serialization emits the children with all
ON_MESH-bound siblings first, alphabetically by name within each group,
appends one blank separator line exactly when some child emitted output,
and the emitted order is unchanged by any permutation of the scene
collection's insertion order (sibling names are unique in the host). -/
theorem claim_C3 (reg : Registry) (scene : List Ob) (fuel : Nat)
    (p : Option String)
    (hnd : scene.Pairwise (fun a b => a.name ≠ b.name)) :
    BFObject.sortedChildren scene p =
      pySort BFObject.nameLe
        ((scene.filter (fun ob => ob.parent = p)).filter
          (fun ob => !BFObject.notMesh ob)) ++
      pySort BFObject.nameLe
        ((scene.filter (fun ob => ob.parent = p)).filter
          BFObject.notMesh) ∧
    (∀ ob ∈ pySort BFObject.nameLe
        ((scene.filter (fun ob => ob.parent = p)).filter
          (fun ob => !BFObject.notMesh ob)),
      ob.bf_namelist_cls = "ON_MESH") ∧
    (∀ ob ∈ pySort BFObject.nameLe
        ((scene.filter (fun ob => ob.parent = p)).filter
          BFObject.notMesh),
      ob.bf_namelist_cls ≠ "ON_MESH") ∧
    (pySort BFObject.nameLe
        ((scene.filter (fun ob => ob.parent = p)).filter
          (fun ob => !BFObject.notMesh ob))).Pairwise
      (fun a b => a.name ≤ b.name) ∧
    (pySort BFObject.nameLe
        ((scene.filter (fun ob => ob.parent = p)).filter
          BFObject.notMesh)).Pairwise (fun a b => a.name ≤ b.name) ∧
    (((BFObject.sortedChildren scene p).map
        (fun ob => BFObject.to_fds reg scene fuel ob true)).filter
          (fun body => body ≠ "") = [] →
      BFObject.children_to_fds reg scene (fuel + 1) p = []) ∧
    (((BFObject.sortedChildren scene p).map
        (fun ob => BFObject.to_fds reg scene fuel ob true)).filter
          (fun body => body ≠ "") ≠ [] →
      BFObject.children_to_fds reg scene (fuel + 1) p =
        ((BFObject.sortedChildren scene p).map
          (fun ob => BFObject.to_fds reg scene fuel ob true)).filter
            (fun body => body ≠ "") ++ [nl]) ∧
    (∀ s₂ : List Ob, scene.Perm s₂ →
      BFObject.children_to_fds reg scene fuel p =
        BFObject.children_to_fds reg s₂ fuel p) := by
  refine ⟨sortedChildren_eq scene p, ?_, ?_, ?_, ?_, ?_, ?_,
    fun s₂ hp => children_to_fds_perm_eq reg hp hnd fuel p⟩
  · intro ob hob
    have h := (List.mem_filter.mp ((pySort_perm _ _).subset hob)).2
    simpa [BFObject.notMesh] using h
  · intro ob hob
    have h := (List.mem_filter.mp ((pySort_perm _ _).subset hob)).2
    simpa [BFObject.notMesh] using h
  · exact (pySort_pairwise BFObject.nameLe nameLe_trans nameLe_total _).imp
      (fun h => by simpa [BFObject.nameLe] using h)
  · exact (pySort_pairwise BFObject.nameLe nameLe_trans nameLe_total _).imp
      (fun h => by simpa [BFObject.nameLe] using h)
  · intro hempty
    rw [children_to_fds_succ, hempty]
    simp
  · intro hne
    rw [children_to_fds_succ, if_pos hne]

/-- Witness for C3 at the fixture scene (parent P with children A, B). -/
theorem claim_C3_witness :
    BFObject.sortedChildren wObs (some "P") =
      pySort BFObject.nameLe
        ((wObs.filter (fun ob => ob.parent = some "P")).filter
          (fun ob => !BFObject.notMesh ob)) ++
      pySort BFObject.nameLe
        ((wObs.filter (fun ob => ob.parent = some "P")).filter
          BFObject.notMesh) ∧
    (∀ ob ∈ pySort BFObject.nameLe
        ((wObs.filter (fun ob => ob.parent = some "P")).filter
          (fun ob => !BFObject.notMesh ob)),
      ob.bf_namelist_cls = "ON_MESH") ∧
    (∀ ob ∈ pySort BFObject.nameLe
        ((wObs.filter (fun ob => ob.parent = some "P")).filter
          BFObject.notMesh),
      ob.bf_namelist_cls ≠ "ON_MESH") ∧
    (pySort BFObject.nameLe
        ((wObs.filter (fun ob => ob.parent = some "P")).filter
          (fun ob => !BFObject.notMesh ob))).Pairwise
      (fun a b => a.name ≤ b.name) ∧
    (pySort BFObject.nameLe
        ((wObs.filter (fun ob => ob.parent = some "P")).filter
          BFObject.notMesh)).Pairwise (fun a b => a.name ≤ b.name) ∧
    (((BFObject.sortedChildren wObs (some "P")).map
        (fun ob => BFObject.to_fds wReg wObs 1 ob true)).filter
          (fun body => body ≠ "") = [] →
      BFObject.children_to_fds wReg wObs (1 + 1) (some "P") = []) ∧
    (((BFObject.sortedChildren wObs (some "P")).map
        (fun ob => BFObject.to_fds wReg wObs 1 ob true)).filter
          (fun body => body ≠ "") ≠ [] →
      BFObject.children_to_fds wReg wObs (1 + 1) (some "P") =
        ((BFObject.sortedChildren wObs (some "P")).map
          (fun ob => BFObject.to_fds wReg wObs 1 ob true)).filter
            (fun body => body ≠ "") ++ [nl]) ∧
    (∀ s₂ : List Ob, wObs.Perm s₂ →
      BFObject.children_to_fds wReg wObs 1 (some "P") =
        BFObject.children_to_fds wReg s₂ 1 (some "P")) :=
  claim_C3 wReg wObs 1 (some "P") (by decide)

/-- C4: an entity whose export flag is false contributes zero bytes of its
own serialization, while `to_fds` with `with_children=true` still emits the
output of its children (children export is not gated by the parent's
flag). -/
theorem claim_C4 (reg : Registry) (scene : List Ob) (fuel : Nat) (ob : Ob)
    (h : ob.bf_export = false) :
    BFObject.myself_to_fds reg ob = [] ∧
    BFObject.to_fds reg scene fuel ob true =
      pyConcat (BFObject.children_to_fds reg scene fuel (some ob.name)) := by
  have hm : BFObject.myself_to_fds reg ob = [] := by
    simp [BFObject.myself_to_fds, h]
  exact ⟨hm, by simp [BFObject.to_fds, hm]⟩

/-- Witness for C4: the disabled fixture parent P still yields its
children's output. -/
theorem claim_C4_witness :
    BFObject.myself_to_fds wReg wObP = [] ∧
    BFObject.to_fds wReg wObs 1 wObP true =
      pyConcat (BFObject.children_to_fds wReg wObs 1 (some "P")) :=
  claim_C4 wReg wObs 1 wObP rfl

/-- C7: a mesh-kind object that is temporary, or whose namelist-class
string matches no registry entry, resolves to no namelist and its own
serialization is empty — export silently omits it and never raises. -/
theorem claim_C7 (reg : Registry) (ob : Ob) (h1 : ob.typ = "MESH")
    (h2 : ob.bf_is_tmp = true ∨ reg.get ob.bf_namelist_cls = none) :
    BFObject.bf_namelist reg ob = none ∧
    BFObject.myself_to_fds reg ob = [] := by
  have hn : BFObject.bf_namelist reg ob = none := by
    unfold BFObject.bf_namelist
    rcases h2 with h2 | h2
    · rw [if_pos (Or.inr h2)]
    · by_cases htmp : ob.bf_is_tmp = true
      · rw [if_pos (Or.inr htmp)]
      · rw [if_neg (by simp [h1, htmp]), h2]
  refine ⟨hn, ?_⟩
  unfold BFObject.myself_to_fds
  by_cases he : ob.bf_export = true
  · rw [if_pos he, if_pos h1, hn]
  · rw [if_neg he]

/-- Witness for C7 at the temporary fixture object. -/
theorem claim_C7_witness :
    BFObject.bf_namelist wReg wObTmp = none ∧
    BFObject.myself_to_fds wReg wObTmp = [] :=
  claim_C7 wReg wObTmp rfl (Or.inl rfl)

-- ### Import-run characterization

theorem sda_idem (s : SceneData) :
    BFScene.set_default_appearance (BFScene.set_default_appearance s) =
      BFScene.set_default_appearance s := rfl

theorem freeTextName_sda (s : SceneData) :
    BFScene.freeTextName (BFScene.set_default_appearance s) =
      BFScene.freeTextName s := by
  by_cases h : s.bf_head_free_text = "" <;>
    simp [BFScene.freeTextName, BFScene.fds_head_set_free_text_file,
      BFScene.set_default_appearance, h]

theorem tokenElement_scene_invariant (reg : Registry) (cls : NamelistCls)
    (label : String) {s0 s1 : SceneData}
    (h : BFScene.set_default_appearance s1 =
      BFScene.set_default_appearance s0) :
    BFScene.tokenElement reg s1 cls label =
      BFScene.tokenElement reg s0 cls label := by
  unfold BFScene.tokenElement
  cases cls.bpy_type <;> simp [h]

theorem sda_ob_name (reg : Registry) (x : Ob) :
    (BFObject.set_default_appearance reg x).name = x.name := by
  cases hn : BFObject.bf_namelist reg x with
  | none => simp [BFObject.set_default_appearance, hn]
  | some cls =>
    cases hd : cls.draw_type with
    | none => simp [BFObject.set_default_appearance, hn, hd]
    | some dt =>
      by_cases h : dt = "" <;>
        simp [BFObject.set_default_appearance, hn, hd, h]

theorem sda_ob_cls (reg : Registry) (x : Ob) :
    (BFObject.set_default_appearance reg x).bf_namelist_cls =
      x.bf_namelist_cls := by
  cases hn : BFObject.bf_namelist reg x with
  | none => simp [BFObject.set_default_appearance, hn]
  | some cls =>
    cases hd : cls.draw_type with
    | none => simp [BFObject.set_default_appearance, hn, hd]
    | some dt =>
      by_cases h : dt = "" <;>
        simp [BFObject.set_default_appearance, hn, hd, h]

theorem get_imported_element_spec (reg : Registry) (st : BFScene.ImportState)
    (cls : NamelistCls) (label : String) :
    ∀ el st',
      BFScene.get_imported_element reg st cls label = Except.ok (el, st') →
      some el = BFScene.tokenElement reg st.scene cls label ∧
      st'.scene = (match cls.bpy_type with
        | BpyType.scene => BFScene.set_default_appearance st.scene
        | _ => st.scene) ∧
      st'.texts = st.texts ∧ st'.errors = st.errors ∧
      st'.free_texts = st.free_texts := by
  intro el st' h
  unfold BFScene.get_imported_element at h
  unfold BFScene.tokenElement
  cases hbt : cls.bpy_type <;> rw [hbt] at h <;> cases h <;>
    exact ⟨rfl, rfl, rfl, rfl, rfl⟩

theorem tokenObservers_unmanaged (reg : Registry) (s0 : SceneData)
    (t : Token)
    (hcls : BFScene.get_imported_bf_namelist_cls reg t.label t.params =
      none) :
    BFScene.tokenContribution reg s0 t = [t.original] ∧
    BFScene.tokenFails reg s0 t = false := by
  unfold BFScene.tokenContribution BFScene.tokenFails
  rw [hcls]
  exact ⟨rfl, rfl⟩

theorem tokenObservers_managed (reg : Registry) (s0 : SceneData)
    (t : Token) (cls : NamelistCls) (el : Element)
    (hcls : BFScene.get_imported_bf_namelist_cls reg t.label t.params =
      some cls)
    (helem : BFScene.tokenElement reg s0 cls t.label = some el) :
    BFScene.tokenContribution reg s0 t =
      (match cls.fromFds el t.params with
       | Except.ok _ => []
       | Except.error fts => fts) ∧
    BFScene.tokenFails reg s0 t =
      (match cls.fromFds el t.params with
       | Except.ok _ => false
       | Except.error _ => true) := by
  unfold BFScene.tokenContribution BFScene.tokenFails
  rw [hcls]
  constructor
  · show (match BFScene.tokenElement reg s0 cls t.label with
      | none => []
      | some el =>
        match cls.fromFds el t.params with
        | Except.ok _ => []
        | Except.error fts => fts) = _
    rw [helem]
  · show (match BFScene.tokenElement reg s0 cls t.label with
      | none => false
      | some el =>
        match cls.fromFds el t.params with
        | Except.ok _ => false
        | Except.error _ => true) = _
    rw [helem]

theorem processToken_ok_spec (reg : Registry) (s0 : SceneData)
    (st : BFScene.ImportState) (t : Token)
    (hsc : st.scene = s0 ∨ st.scene = BFScene.set_default_appearance s0) :
    ∀ st', BFScene.processToken reg st t = Except.ok st' →
      st'.free_texts =
        st.free_texts ++ BFScene.tokenContribution reg s0 t ∧
      st'.errors = (st.errors || BFScene.tokenFails reg s0 t) ∧
      (st'.scene = s0 ∨
        st'.scene = BFScene.set_default_appearance s0) ∧
      st'.texts = st.texts := by
  have hsda : BFScene.set_default_appearance st.scene =
      BFScene.set_default_appearance s0 := by
    rcases hsc with h | h
    · rw [h]
    · rw [h, sda_idem]
  intro st' h
  unfold BFScene.processToken at h
  cases hcls : BFScene.get_imported_bf_namelist_cls reg t.label t.params with
  | none =>
    rw [hcls] at h
    obtain ⟨hc, hf⟩ := tokenObservers_unmanaged reg s0 t hcls
    rw [hc, hf]
    have h' : Except.ok
        ({ st with free_texts := st.free_texts ++ [t.original] } :
          BFScene.ImportState) = Except.ok st' := h
    cases h'
    exact ⟨rfl, by simp, hsc, rfl⟩
  | some cls =>
    rw [hcls] at h
    have h₁ : (match BFScene.get_imported_element reg st cls t.label with
      | Except.error e => (Except.error e : Except String BFScene.ImportState)
      | Except.ok (el, st₁) =>
        match cls.fromFds el t.params with
        | Except.ok _ => Except.ok st₁
        | Except.error fts =>
          Except.ok { st₁ with errors := true,
                               free_texts := st₁.free_texts ++ fts }) =
        Except.ok st' := h
    clear h
    cases hel : BFScene.get_imported_element reg st cls t.label with
    | error e => rw [hel] at h₁; cases h₁
    | ok pr =>
      obtain ⟨el, st₁⟩ := pr
      rw [hel] at h₁
      have h₂ : (match cls.fromFds el t.params with
        | Except.ok _ => (Except.ok st₁ : Except String BFScene.ImportState)
        | Except.error fts =>
          Except.ok { st₁ with errors := true,
                               free_texts := st₁.free_texts ++ fts }) =
          Except.ok st' := h₁
      clear h₁
      obtain ⟨helem, hscene₁, htexts₁, herr₁, hft₁⟩ :=
        get_imported_element_spec reg st cls t.label el st₁ hel
      have helem' : BFScene.tokenElement reg s0 cls t.label = some el := by
        rw [← tokenElement_scene_invariant reg cls t.label hsda, ← helem]
      obtain ⟨hc, hf⟩ := tokenObservers_managed reg s0 t cls el hcls helem'
      rw [hc, hf]
      have hscene' : st₁.scene = s0 ∨
          st₁.scene = BFScene.set_default_appearance s0 := by
        rw [hscene₁]
        cases cls.bpy_type
        case scene => exact Or.inr hsda
        all_goals exact hsc
      cases hff : cls.fromFds el t.params with
      | ok u =>
        rw [hff] at h₂
        have h₃ : Except.ok st₁ = Except.ok st' := h₂
        cases h₃
        refine ⟨?_, ?_, hscene', htexts₁⟩
        · rw [hft₁]
          show st.free_texts = st.free_texts ++ ([] : List String)
          rw [List.append_nil]
        · rw [herr₁]
          show st.errors = (st.errors || false)
          rw [Bool.or_false]
      | error fts =>
        rw [hff] at h₂
        have h₃ : Except.ok
            ({ st₁ with errors := true,
                        free_texts := st₁.free_texts ++ fts } :
              BFScene.ImportState) = Except.ok st' := h₂
        cases h₃
        refine ⟨?_, ?_, hscene', htexts₁⟩
        · show st₁.free_texts ++ fts = st.free_texts ++ fts
          rw [hft₁]
        · show true = (st.errors || true)
          simp

theorem importFold_ok_spec (reg : Registry) (s0 : SceneData) :
    ∀ (ts : List Token) (st st' : BFScene.ImportState),
      (st.scene = s0 ∨ st.scene = BFScene.set_default_appearance s0) →
      BFScene.importFold reg ts st = Except.ok st' →
      st'.free_texts = st.free_texts ++
        ts.flatMap (BFScene.tokenContribution reg s0) ∧
      st'.errors = (st.errors || ts.any (BFScene.tokenFails reg s0)) ∧
      (st'.scene = s0 ∨
        st'.scene = BFScene.set_default_appearance s0) ∧
      st'.texts = st.texts := by
  intro ts
  induction ts with
  | nil =>
    intro st st' hsc h
    have h' : Except.ok st = Except.ok st' := h
    cases h'
    refine ⟨by simp, by simp, hsc, rfl⟩
  | cons t ts ih =>
    intro st st' hsc h
    unfold BFScene.importFold at h
    cases hpt : BFScene.processToken reg st t with
    | error e => rw [hpt] at h; cases h
    | ok st₁ =>
      rw [hpt] at h
      have h' : BFScene.importFold reg ts st₁ = Except.ok st' := h
      obtain ⟨hft, herr, hsc₁, htx⟩ :=
        processToken_ok_spec reg s0 st t hsc st₁ hpt
      obtain ⟨hft', herr', hsc', htx'⟩ := ih st₁ st' hsc₁ h'
      refine ⟨?_, ?_, hsc', htx'.trans htx⟩
      · rw [hft', hft]
        simp [List.append_assoc]
      · rw [herr', herr]
        simp [Bool.or_assoc]

theorem from_fds_fold_spec (reg : Registry)
    (tokenize : String → Except (List String) (List Token)) (s : SceneData)
    (texts : String → String) (value : String) :
    ∀ st', BFScene.from_fds_fold reg tokenize s texts value =
        Except.ok st' →
      st'.free_texts = BFScene.importFragments reg tokenize s value ∧
      st'.errors = (BFScene.parseFailed tokenize value ||
        (pySort BFScene.surfLe
          (BFScene.parsedTokens tokenize value)).any
            (BFScene.tokenFails reg s)) ∧
      (st'.scene = s ∨ st'.scene = BFScene.set_default_appearance s) ∧
      st'.texts = texts := by
  intro st' h
  unfold BFScene.from_fds_fold at h
  unfold BFScene.importFragments BFScene.parseFailed BFScene.parsedTokens
  cases htok : tokenize value with
  | ok ts =>
    rw [htok] at h
    have h' : BFScene.importFold reg (pySort BFScene.surfLe ts)
        (BFScene.initState s texts) = Except.ok st' := h
    obtain ⟨hft, herr, hsc, htx⟩ := importFold_ok_spec reg s
      (pySort BFScene.surfLe ts) (BFScene.initState s texts) st'
      (Or.inl rfl) h'
    refine ⟨?_, ?_, hsc, htx⟩
    · show st'.free_texts =
        (pySort BFScene.surfLe ts).flatMap (BFScene.tokenContribution reg s)
      rw [hft]
      show [] ++ _ = _
      rw [List.nil_append]
    · show st'.errors = (false ||
        (pySort BFScene.surfLe ts).any (BFScene.tokenFails reg s))
      rw [herr]
      rfl
  | error errFts =>
    rw [htok] at h
    have h' : _ = st' := Except.ok.inj h
    subst h'
    exact ⟨rfl, rfl, Or.inl rfl, rfl⟩

theorem from_fds_ok_decompose (reg : Registry)
    (tokenize : String → Except (List String) (List Token)) (s : SceneData)
    (texts : String → String) (value : String)
    (r : BFScene.FromFdsResult)
    (h : BFScene.from_fds reg tokenize s texts value = Except.ok r) :
    ∃ st, BFScene.from_fds_fold reg tokenize s texts value =
        Except.ok st ∧
      r = { state := BFScene.save_imported_unmanaged_tokens st,
            raised :=
              if st.errors then some BFScene.aggregateMsg else none } := by
  unfold BFScene.from_fds at h
  cases hf : BFScene.from_fds_fold reg tokenize s texts value with
  | error e => rw [hf] at h; cases h
  | ok st =>
    rw [hf] at h
    cases h
    exact ⟨st, rfl, rfl⟩

theorem save_spec (st : BFScene.ImportState) :
    (BFScene.save_imported_unmanaged_tokens st).texts
        (BFScene.freeTextName st.scene) =
      pyJoin nl (st.free_texts ++
        (if st.texts (BFScene.freeTextName st.scene) ≠ ""
         then [st.texts (BFScene.freeTextName st.scene)] else [])) ∧
    (BFScene.save_imported_unmanaged_tokens st).scene.bf_head_free_text
      ≠ "" := by
  constructor
  · by_cases ho :
        st.texts (BFScene.fds_head_set_free_text_file st.scene).2 = ""
    · simp [BFScene.save_imported_unmanaged_tokens, BFScene.freeTextName,
        ho]
    · simp [BFScene.save_imported_unmanaged_tokens, BFScene.freeTextName,
        ho]
  · by_cases hh : st.scene.bf_head_free_text = ""
    · simp [BFScene.save_imported_unmanaged_tokens,
        BFScene.fds_head_set_free_text_file, hh,
        BFScene.defaultFreeTextName]
    · simp [BFScene.save_imported_unmanaged_tokens,
        BFScene.fds_head_set_free_text_file, hh]

theorem pyJoin_mem_infix (sep : String) :
    ∀ (l : List String) (s : String), s ∈ l →
      ∃ pre post, pyJoin sep l = pre ++ s ++ post := by
  intro l
  induction l with
  | nil => intro s hs; exact absurd hs (List.not_mem_nil s)
  | cons a t ih =>
    intro s hs
    rcases List.mem_cons.mp hs with rfl | hs'
    · cases t with
      | nil =>
        refine ⟨"", "", ?_⟩
        show s = "" ++ s ++ ""
        rw [String.empty_append, String.append_empty]
      | cons b t' =>
        refine ⟨"", sep ++ pyJoin sep (b :: t'), ?_⟩
        show s ++ sep ++ pyJoin sep (b :: t') = "" ++ s ++ _
        rw [String.empty_append, String.append_assoc]
    · cases t with
      | nil => exact absurd hs' (List.not_mem_nil s)
      | cons b t' =>
        rcases ih s hs' with ⟨pre, post, hpp⟩
        refine ⟨a ++ sep ++ pre, post, ?_⟩
        show a ++ sep ++ pyJoin sep (b :: t') = a ++ sep ++ pre ++ s ++ post
        rw [hpp]
        simp [String.append_assoc]

theorem getLast?_append_right {α} {l₁ l₂ : List α} (h : l₂ ≠ []) :
    (l₁ ++ l₂).getLast? = l₂.getLast? := by
  rw [List.getLast?_append]
  cases hl : l₂.getLast? with
  | some y => rfl
  | none => exact absurd (List.getLast?_eq_none_iff.mp hl) h

theorem data_ne_nil {s : String} (h : s ≠ "") : s.data ≠ [] := by
  intro hc
  apply h
  cases s
  simp_all

theorem append_data_getLast (a b : String) (h : b ≠ "") :
    (a ++ b).data.getLast? = b.data.getLast? := by
  rw [String.data_append]
  exact getLast?_append_right (data_ne_nil h)

theorem ite_concat_getLast {α} [DecidableEq α] (B : List α) (x : α)
    (h : (if B ≠ [] then B ++ [x] else B) ≠ []) :
    (if B ≠ [] then B ++ [x] else B).getLast? = some x := by
  by_cases hb : B = []
  · subst hb
    simp at h
  · rw [if_pos hb]
    exact List.getLast?_concat B

/-- C1 counterexample: importing one unmanaged token `&ZZZ /` into the
fixture scene whose free-text resource FT already holds OLD persists
`&ZZZ /` then a newline then OLD — the accumulated fallback list comes
first and the pre-existing content last, not the other way round as the
claim states. -/
theorem claim_C1_counterexample :
    savedTextOf (BFScene.from_fds wReg wTokenizeUnm wScene wTexts "V")
        "FT" = some ("&ZZZ /" ++ nl ++ "OLD") ∧
    ("&ZZZ /" ++ nl ++ "OLD" : String) ≠ ("OLD" ++ nl ++ "&ZZZ /") :=
  ⟨rfl, by decide⟩

/-- C1 (amended): after every import run of `Scene.from_fds` that reaches
the save, the accumulated free-text fallback list is merged with any
pre-existing free-text content with the FALLBACK LIST FIRST and the
existing content LAST, the pieces separated by newlines, and the merged
result is persisted as the scene's free-text resource; the persistence
step runs even when the fallback list is empty, so the resource is
designated and written after every such import. -/
theorem claim_C1_amended (reg : Registry)
    (tokenize : String → Except (List String) (List Token)) (s : SceneData)
    (texts : String → String) (value : String) (st : BFScene.ImportState)
    (h : BFScene.from_fds_fold reg tokenize s texts value = Except.ok st) :
    BFScene.from_fds reg tokenize s texts value =
      Except.ok { state := BFScene.save_imported_unmanaged_tokens st,
                  raised := if st.errors then some BFScene.aggregateMsg
                            else none } ∧
    (BFScene.save_imported_unmanaged_tokens st).texts
        (BFScene.freeTextName s) =
      pyJoin nl (st.free_texts ++
        (if texts (BFScene.freeTextName s) ≠ ""
         then [texts (BFScene.freeTextName s)] else [])) ∧
    (st.free_texts = [] →
      (BFScene.save_imported_unmanaged_tokens st).texts
          (BFScene.freeTextName s) =
        (if texts (BFScene.freeTextName s) ≠ ""
         then texts (BFScene.freeTextName s) else "")) ∧
    (BFScene.save_imported_unmanaged_tokens st).scene.bf_head_free_text
      ≠ "" := by
  obtain ⟨hft, herr, hsc, htx⟩ :=
    from_fds_fold_spec reg tokenize s texts value st h
  have hname : BFScene.freeTextName st.scene = BFScene.freeTextName s := by
    rcases hsc with h1 | h1
    · rw [h1]
    · rw [h1, freeTextName_sda]
  obtain ⟨hsave, hexists⟩ := save_spec st
  rw [hname, htx] at hsave
  refine ⟨?_, hsave, ?_, hexists⟩
  · unfold BFScene.from_fds
    rw [h]
  · intro hempty
    rw [hsave, hempty]
    by_cases hold : texts (BFScene.freeTextName s) = ""
    · simp [hold, pyJoin]
    · simp [hold, pyJoin]

/-- Witness for the amended C1 at the fixture unmanaged-token run. -/
theorem claim_C1_amended_witness :
    BFScene.from_fds wReg wTokenizeUnm wScene wTexts "V" =
      Except.ok { state := BFScene.save_imported_unmanaged_tokens stC1,
                  raised := if stC1.errors then some BFScene.aggregateMsg
                            else none } ∧
    (BFScene.save_imported_unmanaged_tokens stC1).texts
        (BFScene.freeTextName wScene) =
      pyJoin nl (stC1.free_texts ++
        (if wTexts (BFScene.freeTextName wScene) ≠ ""
         then [wTexts (BFScene.freeTextName wScene)] else [])) ∧
    (stC1.free_texts = [] →
      (BFScene.save_imported_unmanaged_tokens stC1).texts
          (BFScene.freeTextName wScene) =
        (if wTexts (BFScene.freeTextName wScene) ≠ ""
         then wTexts (BFScene.freeTextName wScene) else "")) ∧
    (BFScene.save_imported_unmanaged_tokens stC1).scene.bf_head_free_text
      ≠ "" :=
  claim_C1_amended wReg wTokenizeUnm wScene wTexts "V" stC1 rfl

/-- C5: a `from_fds` run that does not hit the fatal configuration error
raises its single aggregate error iff the error flag was set, i.e. iff
tokenization raised a parse error or some token's per-namelist import
raised; tokens that are merely unmanaged never set the flag by
themselves; per-token errors do not abort the loop (the run reaches the
save and the final raise decision); and the free-text resource is
persisted in the returned state before the aggregate error is raised. -/
theorem claim_C5 (reg : Registry)
    (tokenize : String → Except (List String) (List Token)) (s : SceneData)
    (texts : String → String) (value : String) (r : BFScene.FromFdsResult)
    (h : BFScene.from_fds reg tokenize s texts value = Except.ok r) :
    r.raised.isSome = (BFScene.parseFailed tokenize value ||
      (BFScene.parsedTokens tokenize value).any
        (BFScene.tokenFails reg s)) ∧
    (r.raised = none ∨ r.raised = some BFScene.aggregateMsg) ∧
    (∀ t : Token,
      BFScene.get_imported_bf_namelist_cls reg t.label t.params = none →
      BFScene.tokenFails reg s t = false) ∧
    (∃ st, BFScene.from_fds_fold reg tokenize s texts value =
        Except.ok st ∧
      r.state = BFScene.save_imported_unmanaged_tokens st ∧
      r.state.texts (BFScene.freeTextName s) =
        pyJoin nl (st.free_texts ++
          (if texts (BFScene.freeTextName s) ≠ ""
           then [texts (BFScene.freeTextName s)] else []))) := by
  obtain ⟨st, hfold, hr⟩ :=
    from_fds_ok_decompose reg tokenize s texts value r h
  obtain ⟨hft, herr, hsc, htx⟩ :=
    from_fds_fold_spec reg tokenize s texts value st hfold
  subst hr
  have hname : BFScene.freeTextName st.scene = BFScene.freeTextName s := by
    rcases hsc with h1 | h1
    · rw [h1]
    · rw [h1, freeTextName_sda]
  obtain ⟨hsave, _⟩ := save_spec st
  rw [hname, htx] at hsave
  refine ⟨?_, ?_, ?_, st, hfold, rfl, hsave⟩
  · have hsome : (if st.errors then some BFScene.aggregateMsg
        else none).isSome = st.errors := by
      cases st.errors <;> rfl
    show (if st.errors then some BFScene.aggregateMsg
      else none).isSome = _
    rw [hsome, herr,
      perm_any (BFScene.tokenFails reg s)
        (pySort_perm BFScene.surfLe (BFScene.parsedTokens tokenize value))]
  · show (if st.errors then some BFScene.aggregateMsg else none) = none ∨
      (if st.errors then some BFScene.aggregateMsg else none) =
        some BFScene.aggregateMsg
    cases st.errors
    · exact Or.inl rfl
    · exact Or.inr rfl
  · intro t ht
    exact (tokenObservers_unmanaged reg s t ht).2

/-- Witness for C5 at the fixture failing-token run (the aggregate error
is raised and the failing record's free text is persisted). -/
theorem claim_C5_witness :
    rC5.raised.isSome = (BFScene.parseFailed wTokenizeErr "V" ||
      (BFScene.parsedTokens wTokenizeErr "V").any
        (BFScene.tokenFails wReg wScene)) ∧
    (rC5.raised = none ∨ rC5.raised = some BFScene.aggregateMsg) ∧
    (∀ t : Token,
      BFScene.get_imported_bf_namelist_cls wReg t.label t.params = none →
      BFScene.tokenFails wReg wScene t = false) ∧
    (∃ st, BFScene.from_fds_fold wReg wTokenizeErr wScene wTexts "V" =
        Except.ok st ∧
      rC5.state = BFScene.save_imported_unmanaged_tokens st ∧
      rC5.state.texts (BFScene.freeTextName wScene) =
        pyJoin nl (st.free_texts ++
          (if wTexts (BFScene.freeTextName wScene) ≠ ""
           then [wTexts (BFScene.freeTextName wScene)] else []))) :=
  claim_C5 wReg wTokenizeErr wScene wTexts "V" rC5 rfl

/-- C6: for every input (well-formed or not), the verbatim original text
of every unmanaged token, and every raw free-text fragment carried by the
parse error or by a per-namelist import error, appears verbatim (as a
contiguous substring) in the scene's free-text resource after the import
completes. -/
theorem claim_C6 (reg : Registry)
    (tokenize : String → Except (List String) (List Token)) (s : SceneData)
    (texts : String → String) (value : String) (r : BFScene.FromFdsResult)
    (h : BFScene.from_fds reg tokenize s texts value = Except.ok r) :
    (∀ ts, tokenize value = Except.ok ts →
      ∀ t ∈ ts,
        BFScene.get_imported_bf_namelist_cls reg t.label t.params = none →
        ∃ pre post, r.state.texts (BFScene.freeTextName s) =
          pre ++ t.original ++ post) ∧
    (∀ str ∈ BFScene.importFragments reg tokenize s value,
      ∃ pre post, r.state.texts (BFScene.freeTextName s) =
        pre ++ str ++ post) := by
  obtain ⟨st, hfold, hr⟩ :=
    from_fds_ok_decompose reg tokenize s texts value r h
  obtain ⟨hft, herr, hsc, htx⟩ :=
    from_fds_fold_spec reg tokenize s texts value st hfold
  subst hr
  have hname : BFScene.freeTextName st.scene = BFScene.freeTextName s := by
    rcases hsc with h1 | h1
    · rw [h1]
    · rw [h1, freeTextName_sda]
  obtain ⟨hsave, _⟩ := save_spec st
  rw [hname, htx] at hsave
  have hmem : ∀ str ∈ BFScene.importFragments reg tokenize s value,
      ∃ pre post,
        (BFScene.save_imported_unmanaged_tokens st).texts
          (BFScene.freeTextName s) = pre ++ str ++ post := by
    intro str hstr
    rw [hsave]
    apply pyJoin_mem_infix
    rw [← hft] at hstr
    exact List.mem_append_left _ hstr
  refine ⟨?_, hmem⟩
  intro ts hts t htmem hunm
  apply hmem
  unfold BFScene.importFragments
  rw [hts]
  apply List.mem_flatMap.mpr
  refine ⟨t, (pySort_perm BFScene.surfLe ts).symm.subset htmem, ?_⟩
  rw [(tokenObservers_unmanaged reg s t hunm).1]
  exact List.mem_singleton.mpr rfl

/-- Witness for C6 at the fixture unmanaged-token run. -/
theorem claim_C6_witness :
    (∀ ts, wTokenizeUnm "V" = Except.ok ts →
      ∀ t ∈ ts,
        BFScene.get_imported_bf_namelist_cls wReg t.label t.params =
          none →
        ∃ pre post, rC6.state.texts (BFScene.freeTextName wScene) =
          pre ++ t.original ++ post) ∧
    (∀ str ∈ BFScene.importFragments wReg wTokenizeUnm wScene "V",
      ∃ pre post, rC6.state.texts (BFScene.freeTextName wScene) =
        pre ++ str ++ post) :=
  claim_C6 wReg wTokenizeUnm wScene wTexts "V" rC6 rfl

/-- C8: during import, a token whose label has no direct registry entry
resolves to the generic free-geometry class ON_free exactly when its
parameter mapping contains one of the keys XB, XYZ, PBX, PBY, PBZ; with
none of those keys it resolves to no class, and such a token is treated
as unmanaged: the loop only appends its verbatim original text. -/
theorem claim_C8 (reg : Registry) (label : String)
    (params : List (String × String))
    (h : reg.get_by_fds_label label = none) :
    (BFScene.get_imported_bf_namelist_cls reg label params =
        some reg.ON_free ↔
      ∃ k ∈ BFScene.geomKeys, k ∈ params.map Prod.fst) ∧
    (BFScene.get_imported_bf_namelist_cls reg label params = none ↔
      ¬ ∃ k ∈ BFScene.geomKeys, k ∈ params.map Prod.fst) ∧
    (∀ (st : BFScene.ImportState) (t : Token), t.label = label →
      t.params = params →
      BFScene.get_imported_bf_namelist_cls reg label params = none →
      BFScene.processToken reg st t =
        Except.ok { st with
          free_texts := st.free_texts ++ [t.original] }) := by
  have hmem : BFScene.geomKeys.any
      (fun k => (params.map Prod.fst).contains k) = true ↔
      ∃ k ∈ BFScene.geomKeys, k ∈ params.map Prod.fst := by
    rw [List.any_eq_true]
    constructor
    · rintro ⟨k, hk, hc⟩
      exact ⟨k, hk, List.mem_of_elem_eq_true hc⟩
    · rintro ⟨k, hk, hm⟩
      exact ⟨k, hk, List.elem_eq_true_of_mem hm⟩
  refine ⟨?_, ?_, ?_⟩
  · unfold BFScene.get_imported_bf_namelist_cls
    rw [h]
    by_cases hc : BFScene.geomKeys.any
        (fun k => (params.map Prod.fst).contains k) = true
    · rw [if_pos hc]
      rw [hmem] at hc
      exact ⟨fun _ => hc, fun _ => rfl⟩
    · rw [if_neg hc]
      rw [hmem] at hc
      exact ⟨fun h' => Option.noConfusion h', fun h' => absurd h' hc⟩
  · unfold BFScene.get_imported_bf_namelist_cls
    rw [h]
    by_cases hc : BFScene.geomKeys.any
        (fun k => (params.map Prod.fst).contains k) = true
    · rw [if_pos hc]
      rw [hmem] at hc
      exact ⟨fun h' => Option.noConfusion h', fun h' => absurd hc h'⟩
    · rw [if_neg hc]
      rw [hmem] at hc
      exact ⟨fun _ => hc, fun _ => rfl⟩
  · intro st t ht hp hnone
    subst ht
    subst hp
    unfold BFScene.processToken
    rw [hnone]

/-- Witness for C8: an unregistered label with a geometry key resolves to
ON_free, one without resolves to nothing and is kept verbatim. -/
theorem claim_C8_witness :
    (BFScene.get_imported_bf_namelist_cls wReg "ZZZ" [("XB", "0,1")] =
        some wReg.ON_free ↔
      ∃ k ∈ BFScene.geomKeys, k ∈ ([("XB", "0,1")] :
        List (String × String)).map Prod.fst) ∧
    (BFScene.get_imported_bf_namelist_cls wReg "ZZZ" [("XB", "0,1")] =
        none ↔
      ¬ ∃ k ∈ BFScene.geomKeys, k ∈ ([("XB", "0,1")] :
        List (String × String)).map Prod.fst) ∧
    (∀ (st : BFScene.ImportState) (t : Token), t.label = "ZZZ" →
      t.params = [("XB", "0,1")] →
      BFScene.get_imported_bf_namelist_cls wReg "ZZZ" [("XB", "0,1")] =
        none →
      BFScene.processToken wReg st t =
        Except.ok { st with
          free_texts := st.free_texts ++ [t.original] }) :=
  claim_C8 wReg "ZZZ" [("XB", "0,1")] rfl

/-- C9: the backing entity of a managed token is resolved by the namelist
class's bound kind — scene kind yields the importing scene itself with the
default appearance applied; object kind creates a new object named
New label with the class discriminator set and the default appearance
applied; material kind creates a new material named New label with the
default-surface discriminator MN_SURF and the default appearance applied;
any other kind raises the fatal configuration error; and the token loop
hands exactly that appearance-applied element to the namelist's
`from_fds`. -/
theorem claim_C9 (reg : Registry) (st : BFScene.ImportState)
    (cls : NamelistCls) (label : String) :
    (cls.bpy_type = BpyType.scene →
      BFScene.get_imported_element reg st cls label =
        Except.ok (Element.scene (BFScene.set_default_appearance st.scene),
          { st with scene := BFScene.set_default_appearance st.scene })) ∧
    (cls.bpy_type = BpyType.object →
      ∃ ob, BFScene.get_imported_element reg st cls label =
          Except.ok (Element.object ob,
            { st with newObs := st.newObs ++ [ob] }) ∧
        ob.name = "New " ++ label ∧
        ob.bf_namelist_cls = cls.clsName ∧
        ob = BFObject.set_default_appearance reg
          { BFScene.get_new_object ("New " ++ label) with
              bf_namelist_cls := cls.clsName }) ∧
    (cls.bpy_type = BpyType.material →
      ∃ m, BFScene.get_imported_element reg st cls label =
          Except.ok (Element.material m,
            { st with newMats := st.newMats ++ [m] }) ∧
        m.name = "New " ++ label ∧ m.bf_namelist_cls = "MN_SURF" ∧
        m.use_fake_user = true) ∧
    (cls.bpy_type = BpyType.other →
      BFScene.get_imported_element reg st cls label =
        Except.error
          "BFDS: BFScene.from_fds: Unrecognized namelist type!") ∧
    (∀ (t : Token) (el : Element) (st' : BFScene.ImportState),
      BFScene.get_imported_bf_namelist_cls reg t.label t.params =
        some cls →
      BFScene.get_imported_element reg st cls t.label =
        Except.ok (el, st') →
      BFScene.processToken reg st t =
        (match cls.fromFds el t.params with
         | Except.ok _ => Except.ok st'
         | Except.error fts =>
           Except.ok { st' with errors := true,
                                free_texts := st'.free_texts ++ fts })) := by
  refine ⟨?_, ?_, ?_, ?_, ?_⟩
  · intro hbt
    unfold BFScene.get_imported_element
    rw [hbt]
  · intro hbt
    refine ⟨BFObject.set_default_appearance reg
      { BFScene.get_new_object ("New " ++ label) with
          bf_namelist_cls := cls.clsName }, ?_, ?_, ?_, rfl⟩
    · unfold BFScene.get_imported_element
      rw [hbt]
    · rw [sda_ob_name]
      rfl
    · rw [sda_ob_cls]
  · intro hbt
    refine ⟨BFMaterial.set_default_appearance
      { BFScene.get_new_material ("New " ++ label) with
          bf_namelist_cls := "MN_SURF" }, ?_, rfl, rfl, rfl⟩
    unfold BFScene.get_imported_element
    rw [hbt]
  · intro hbt
    unfold BFScene.get_imported_element
    rw [hbt]
  · intro t el st' hcls hel
    unfold BFScene.processToken
    rw [hcls]
    show (match BFScene.get_imported_element reg st cls t.label with
      | Except.error e =>
        (Except.error e : Except String BFScene.ImportState)
      | Except.ok (el, st') =>
        match cls.fromFds el t.params with
        | Except.ok _ => Except.ok st'
        | Except.error fts =>
          Except.ok { st' with errors := true,
                               free_texts := st'.free_texts ++ fts }) = _
    rw [hel]

/-- Witness for C9 at the fixture misconfigured class (the fatal branch)
and, through the nested implications, the fixture state. -/
theorem claim_C9_witness :
    (wClsBAD.bpy_type = BpyType.scene →
      BFScene.get_imported_element wReg stC1 wClsBAD "BADKIND" =
        Except.ok
          (Element.scene (BFScene.set_default_appearance stC1.scene),
          { stC1 with
              scene := BFScene.set_default_appearance stC1.scene })) ∧
    (wClsBAD.bpy_type = BpyType.object →
      ∃ ob, BFScene.get_imported_element wReg stC1 wClsBAD "BADKIND" =
          Except.ok (Element.object ob,
            { stC1 with newObs := stC1.newObs ++ [ob] }) ∧
        ob.name = "New " ++ "BADKIND" ∧
        ob.bf_namelist_cls = wClsBAD.clsName ∧
        ob = BFObject.set_default_appearance wReg
          { BFScene.get_new_object ("New " ++ "BADKIND") with
              bf_namelist_cls := wClsBAD.clsName }) ∧
    (wClsBAD.bpy_type = BpyType.material →
      ∃ m, BFScene.get_imported_element wReg stC1 wClsBAD "BADKIND" =
          Except.ok (Element.material m,
            { stC1 with newMats := stC1.newMats ++ [m] }) ∧
        m.name = "New " ++ "BADKIND" ∧ m.bf_namelist_cls = "MN_SURF" ∧
        m.use_fake_user = true) ∧
    (wClsBAD.bpy_type = BpyType.other →
      BFScene.get_imported_element wReg stC1 wClsBAD "BADKIND" =
        Except.error
          "BFDS: BFScene.from_fds: Unrecognized namelist type!") ∧
    (∀ (t : Token) (el : Element) (st' : BFScene.ImportState),
      BFScene.get_imported_bf_namelist_cls wReg t.label t.params =
        some wClsBAD →
      BFScene.get_imported_element wReg stC1 wClsBAD t.label =
        Except.ok (el, st') →
      BFScene.processToken wReg stC1 t =
        (match wClsBAD.fromFds el t.params with
         | Except.ok _ => Except.ok st'
         | Except.error fts =>
           Except.ok { st' with errors := true,
                                free_texts := st'.free_texts ++ fts })) :=
  claim_C9 wReg stC1 wClsBAD "BADKIND"

/-- C10: `Scene.to_fds` with `with_children=false` returns exactly the
concatenation of the scene-level namelists block (classes bound to the
scene kind, sorted by enum_id, with a trailing blank separator when
non-empty) and the free-text block (with a guaranteed trailing newline
when non-empty); the header, materials, objects and trailer blocks appear
only in the `with_children=true` output. -/
theorem claim_C10 (reg : Registry) (env : ExportEnv)
    (texts : String → String) (mats : List Mat) (obs : List Ob)
    (fuel : Nat) (s : SceneData) :
    BFScene.to_fds reg env texts mats obs fuel s false =
      pyConcat (BFScene.myself_to_fds reg s ++
        BFScene.free_text_to_fds texts s) ∧
    BFScene.to_fds reg env texts mats obs fuel s true =
      pyConcat (BFScene.header_to_fds env s ++
        BFScene.myself_to_fds reg s ++
        BFScene.free_text_to_fds texts s ++
        (BFScene.children_to_fds reg env mats obs fuel ++
          ["&TAIL /" ++ nl ++ "! Generated in " ++ env.genTime ++
            " s."])) ∧
    (BFScene.bf_namelists reg).Pairwise
      (fun a b => a.enum_id ≤ b.enum_id) ∧
    (BFScene.bf_namelists reg).Perm
      (reg.all.filter (fun cls => cls.bpy_type = BpyType.scene)) ∧
    (BFScene.myself_to_fds reg s ≠ [] →
      (BFScene.myself_to_fds reg s).getLast? = some nl) ∧
    (BFScene.free_text_to_fds texts s ≠ [] →
      (pyConcat (BFScene.free_text_to_fds texts s)).data.getLast? =
        some (Char.ofNat 10)) := by
  refine ⟨?_, rfl, ?_, pySort_perm _ _, ?_, ?_⟩
  · show pyConcat (([] : List String) ++ BFScene.myself_to_fds reg s ++
      BFScene.free_text_to_fds texts s ++ []) = _
    rw [List.append_nil, List.nil_append]
  · exact (pySort_pairwise BFScene.enumIdLe enumIdLe_trans
      enumIdLe_total _).imp (fun h => by simpa [BFScene.enumIdLe] using h)
  · intro hne
    exact ite_concat_getLast _ nl hne
  · intro hne
    unfold BFScene.free_text_to_fds at hne ⊢
    by_cases hh : s.bf_head_free_text ≠ ""
    · rw [if_pos hh] at hne ⊢
      by_cases hf : texts s.bf_head_free_text = ""
      · rw [if_pos hf] at hne
        exact absurd rfl hne
      · rw [if_neg hf] at hne ⊢
        by_cases hl : (texts s.bf_head_free_text).data.getLast? =
            some (Char.ofNat 10)
        · rw [if_neg (by simp [hl])]
          show ((("! --- Free text: " ++ squote ++ s.bf_head_free_text ++
              squote ++ nl) ++
            (texts s.bf_head_free_text ++ "")).data).getLast? = _
          rw [String.append_empty, append_data_getLast _ _ hf, hl]
        · rw [if_pos (by simpa using hl)]
          show ((("! --- Free text: " ++ squote ++ s.bf_head_free_text ++
              squote ++ nl) ++
            (texts s.bf_head_free_text ++ (nl ++ ""))).data).getLast? = _
          rw [String.append_empty]
          have hne2 : texts s.bf_head_free_text ++ nl ≠ "" := by
            intro hc
            have hd := congrArg String.data hc
            rw [String.data_append] at hd
            exact data_ne_nil (s := nl) (by decide)
              (List.append_eq_nil.mp hd).2
          rw [append_data_getLast _ _ hne2,
            append_data_getLast _ _ (show nl ≠ "" by decide)]
          decide
    · rw [if_neg hh] at hne
      exact absurd rfl hne

/-- Witness for C10 at the fixture scene and registry. -/
theorem claim_C10_witness :
    BFScene.to_fds wReg wEnv wTexts wMats wObs 1 wScene false =
      pyConcat (BFScene.myself_to_fds wReg wScene ++
        BFScene.free_text_to_fds wTexts wScene) ∧
    BFScene.to_fds wReg wEnv wTexts wMats wObs 1 wScene true =
      pyConcat (BFScene.header_to_fds wEnv wScene ++
        BFScene.myself_to_fds wReg wScene ++
        BFScene.free_text_to_fds wTexts wScene ++
        (BFScene.children_to_fds wReg wEnv wMats wObs 1 ++
          ["&TAIL /" ++ nl ++ "! Generated in " ++ wEnv.genTime ++
            " s."])) ∧
    (BFScene.bf_namelists wReg).Pairwise
      (fun a b => a.enum_id ≤ b.enum_id) ∧
    (BFScene.bf_namelists wReg).Perm
      (wReg.all.filter (fun cls => cls.bpy_type = BpyType.scene)) ∧
    (BFScene.myself_to_fds wReg wScene ≠ [] →
      (BFScene.myself_to_fds wReg wScene).getLast? = some nl) ∧
    (BFScene.free_text_to_fds wTexts wScene ≠ [] →
      (pyConcat (BFScene.free_text_to_fds wTexts wScene)).data.getLast? =
        some (Char.ofNat 10)) :=
  claim_C10 wReg wEnv wTexts wMats wObs 1 wScene
